import Mathlib

/-!
Verification development for the AOI tiling utility (`AOI_tiler`) of the
`eo_processing` repository.

The repository's own material in scope here is the example notebook that
drives `AOI_tiler` (its recorded warning messages and error tracebacks) and
the specification of the tiler.  The body of
`eo_processing/utils/geoprocessing.py` itself is not part of the available
sources, so the tiler is modelled from the specification, kept faithful to
every concrete behaviour the notebook records (exact warning texts, exact
error messages, which input triggered which error).

Geometries are modelled in the rectilinear fragment the tiler exercises:
a geometry (shapely polygon / multipolygon) is a finite union of closed
axis-aligned boxes with rational coordinates.  The external geometry
library calls used by the code (`intersects`, `unary_union`, `bounds`,
`to_crs`) are given their set-semantics on this fragment; CRS reprojection
is an abstract coordinate transform supplied by the environment, with the
geopandas behaviour that reprojecting to the CRS already attached leaves
the table unchanged.
-/

namespace EOProcessing

/-- A closed axis-aligned box, `(west, south)`–`(east, north)`, rational
coordinates. -/
structure Box where
  west : ℚ
  south : ℚ
  east : ℚ
  north : ℚ
deriving DecidableEq, Repr

/-- A geometry: a finite union of closed boxes (the rectilinear fragment of
shapely geometry that the tiler manipulates). -/
abbrev Region := List Box

/-- Two closed boxes intersect (touch or overlap) iff their coordinate
intervals overlap on both axes.  This is shapely `intersects` on boxes:
boundary contact counts. -/
def boxIntersects (a b : Box) : Bool :=
  decide (a.west ≤ b.east ∧ b.west ≤ a.east ∧ a.south ≤ b.north ∧ b.south ≤ a.north)

/-- Two regions intersect iff some box of one intersects some box of the
other (set semantics of shapely `intersects` on finite unions of boxes). -/
def regionIntersects (r s : Region) : Bool :=
  r.any fun a => s.any fun b => boxIntersects a b

/-- Union of a list of regions (shapely `unary_union` on this fragment:
the union of finite unions of boxes is their concatenation). -/
def unionAll (rs : List Region) : Region :=
  rs.flatten

/-- Envelope of a region: shapely `bounds`, `none` on the empty geometry. -/
def regionBounds (r : Region) : Option Box :=
  match r with
  | [] => none
  | b :: bs =>
    some (bs.foldl
      (fun acc x =>
        ⟨min acc.west x.west, min acc.south x.south,
         max acc.east x.east, max acc.north x.north⟩) b)

/-- The openEO bounding-box dictionary: keys `west`, `south`, `east`,
`north` (numeric) and `crs` (string). -/
structure BBoxDict where
  west : ℚ
  south : ℚ
  east : ℚ
  north : ℚ
  crs : String
deriving DecidableEq, Repr

/-- A JSON-ish value, to state the wire-level shape of a bounding-box
dictionary. -/
inductive JValue where
  | num (q : ℚ)
  | str (s : String)
deriving DecidableEq, Repr

/-- The bounding-box dictionary as the key/value mapping consumed by the
downstream job-submission collaborator. -/
def BBoxDict.toPairs (d : BBoxDict) : List (String × JValue) :=
  [("west", JValue.num d.west), ("south", JValue.num d.south),
   ("east", JValue.num d.east), ("north", JValue.num d.north),
   ("crs", JValue.str d.crs)]

/-- Bounding-box dictionary derived from a tile geometry's bounds plus a
CRS string (the fallback when the grid has no `bbox_dict` column).  The
empty geometry gets a degenerate box. -/
def boundsBBox (g : Region) (crs : String) : BBoxDict :=
  match regionBounds g with
  | some b => ⟨b.west, b.south, b.east, b.north, crs⟩
  | none => ⟨0, 0, 0, 0, crs⟩

/-- A geometry table (geopandas GeoDataFrame) restricted to the columns the
tiler inspects: the CRS, the optional `grid20id`, `name` and `bbox_dict`
columns (a column, when present, is a total assignment of values to row
indices), and the geometry column. -/
structure GeoDataFrame where
  crs : String
  grid20id : Option (Nat → String)
  name : Option (Nat → String)
  bbox_dict : Option (Nat → BBoxDict)
  geoms : List Region

/-- The tile-identifier column: `grid20id` preferred, `name` as fallback. -/
def idColumn (df : GeoDataFrame) : Option (Nat → String) :=
  match df.grid20id with
  | some col => some col
  | none => df.name

/-- The non-fatal advisory warnings the tiler can emit. -/
inductive Warning where
  | missingIdColumn
  | missingBboxDictColumn
deriving DecidableEq, Repr

/-- Advisory message text of each warning, as recorded in the notebook
output. -/
def Warning.text : Warning → String
  | .missingIdColumn =>
      "WARNING: the column \"grid20id\" or \"name\" was not found in the tiling grid. slower workflow for intersection is used."
  | .missingBboxDictColumn =>
      "WARNING: the column \"bbox_dict\" was not found in the tiling grid. Automatic spatial extent generation in the job_function of the JobManager will be not possible"

/-- The error kinds of the tiler (all surfaced as `ValueError` in the
implementation, distinguished by message). -/
inductive TilerError where
  /-- A local file (grid or AOI) could not be read as a supported vector
  or columnar format. -/
  | unsupportedSource
  /-- The grid source is of an unsupported runtime shape. -/
  | unsupportedGridSpec
  /-- The reserved keyword `global` was used without a storage
  collaborator. -/
  | missingCredential
  /-- A URL grid fetch failed (underlying failure, behaviour outside the
  recorded material). -/
  | urlReadFailure
deriving DecidableEq, Repr

/-- Message text of the two error kinds attested verbatim in the notebook
traceback; the other kinds carry descriptive placeholders. -/
def TilerError.message : TilerError → String
  | .unsupportedSource =>
      "If a path to a local file was supplied, it must be either a geoparquet or geopandas file or a geoJSON file. "
  | .unsupportedGridSpec =>
      "tiling grid must be a valid URL to geoparquet file or a path to local geoparquet, geoparquet or geoJSON file."
  | .missingCredential =>
      "the tiling grid keyword global requires a storage object with GDrive credentials"
  | .urlReadFailure =>
      "the tiling grid URL could not be fetched"

/-- The storage-access collaborator (WEED_storage): an opaque credentialed
handle. -/
structure Storage where
  username : String
deriving DecidableEq, Repr

/-- The external world the tiler reads through: the pyproj coordinate
transform between two CRSs, the vector/columnar file readers (`none`
models any read failure: nonexistent path, unreadable content), the grid
bundled with the package resources (keyword `EU`), and the grid fetched
through a storage collaborator (keyword `global`). -/
structure Env where
  reproj : String → String → Box → Box
  readVector : String → Option GeoDataFrame
  euGrid : GeoDataFrame
  globalGrid : Storage → GeoDataFrame

/-- Reproject a geometry table to EPSG:4326: geopandas `to_crs`.  A table
already in EPSG:4326 is returned unchanged; otherwise every geometry is
mapped through the coordinate transform and the CRS tag is replaced.
Attribute columns are untouched. -/
def GeoDataFrame.to_crs4326 (df : GeoDataFrame) (env : Env) : GeoDataFrame :=
  if df.crs = "EPSG:4326" then df
  else { df with crs := "EPSG:4326",
                 geoms := df.geoms.map fun r => r.map (env.reproj df.crs "EPSG:4326") }

/-- Modelled from the spec: the closed set of AOI source forms accepted by
`AOI_tiler` (geometry table, openEO bounding-box mapping, GeoJSON-like
feature collection, filesystem path, bare polygon). -/
inductive AOISource where
  | table (df : GeoDataFrame)
  | bbox (d : BBoxDict)
  | geojson (features : List Region)
  | path (p : String)
  | polygon (g : Region)

/-- Modelled from the spec: the runtime shapes a tiling-grid source can
take: a geometry table, a string (URL, local path, or one of the keywords
`EU` and `global`), or any other runtime value. -/
inductive GridSource where
  | table (df : GeoDataFrame)
  | str (s : String)
  | other

/-- The rectangular polygon of an openEO bounding-box mapping. -/
def bboxPolygon (d : BBoxDict) : Region :=
  [⟨d.west, d.south, d.east, d.north⟩]

/-- Modelled from the spec: AOI normalization (§4.1).  The geometry table
is used as-is; a bounding-box mapping becomes a one-row table of its
rectangle with the given CRS; a GeoJSON-like mapping becomes a table of
its features with CRS defaulted to EPSG:4326; a path is read through the
vector/columnar reader and a failed read raises the unsupported-source
error; a bare polygon becomes a one-row table with CRS defaulted to
EPSG:4326. -/
def normalizeAOI (env : Env) (src : AOISource) : Except TilerError GeoDataFrame :=
  match src with
  | .table df => .ok df
  | .bbox d => .ok ⟨d.crs, none, none, none, [bboxPolygon d]⟩
  | .geojson fs => .ok ⟨"EPSG:4326", none, none, none, fs⟩
  | .path p =>
    match env.readVector p with
    | some df => .ok df
    | none => .error .unsupportedSource
  | .polygon g => .ok ⟨"EPSG:4326", none, none, none, [g]⟩

/-- A string grid source is a URL when it carries an http or https
scheme. -/
def isURL (s : String) : Bool :=
  "http://".data.isPrefixOf s.data || "https://".data.isPrefixOf s.data

/-- Modelled from the spec (§4.2), with the string dispatch corrected
against the notebook traceback: the keyword `EU` loads the packaged grid;
the keyword `global` requires the storage collaborator and fails with the
missing-credential error without it; an http/https URL is fetched through
the reader; every other string is attempted as a local file and any
failure of that read is caught and replaced by the single
unsupported-source error; a grid source that is neither a table nor a
string raises the unsupported-grid-specification error.  Every
successfully loaded grid is reprojected to EPSG:4326. -/
def loadGrid (env : Env) (src : GridSource) (storage : Option Storage) :
    Except TilerError GeoDataFrame :=
  match src with
  | .table df => .ok (df.to_crs4326 env)
  | .str s =>
    if s = "EU" then .ok (env.euGrid.to_crs4326 env)
    else if s = "global" then
      match storage with
      | none => .error .missingCredential
      | some st => .ok ((env.globalGrid st).to_crs4326 env)
    else if isURL s then
      match env.readVector s with
      | some df => .ok (df.to_crs4326 env)
      | none => .error .urlReadFailure
    else
      match env.readVector s with
      | some df => .ok (df.to_crs4326 env)
      | none => .error .unsupportedSource
  | .other => .error .unsupportedGridSpec

/-- The advisory warnings for a loaded grid: one per missing column
(identifier column `grid20id`/`name`, bounding-box-dictionary column
`bbox_dict`), in the order the notebook records them. -/
def gridWarnings (df : GeoDataFrame) : List Warning :=
  (match idColumn df with
   | some _ => []
   | none => [Warning.missingIdColumn]) ++
  (match df.bbox_dict with
   | some _ => []
   | none => [Warning.missingBboxDictColumn])

/-- One output row of the tiler: tile identifier (grid column value, or a
synthesized sequential key when the grid has no identifier column),
bounding-box dictionary, and the tile geometry. -/
structure TileJobRow where
  tile_id : String ⊕ Nat
  bbox : BBoxDict
  geom : Region
deriving DecidableEq, Repr

/-- Build the output row for the grid tile at index `i` with geometry `g`:
the identifier comes from the identifier column when present and is the
sequential key `i` otherwise; the bounding-box dictionary comes from the
`bbox_dict` column when present and is derived from the tile geometry's
bounds plus the grid's CRS otherwise. -/
def mkTileRow (grid : GeoDataFrame) (i : Nat) (g : Region) : TileJobRow :=
  { tile_id :=
      match idColumn grid with
      | some col => Sum.inl (col i)
      | none => Sum.inr i
    bbox :=
      match grid.bbox_dict with
      | some col => col i
      | none => boundsBBox g grid.crs
    geom := g }

/-- Modelled from the spec: the `AOI_tiler` pipeline (§4.3) — normalize
the AOI, load and reproject the tiling grid, reproject the AOI to the
grid's CRS (EPSG:4326), union the AOI features, select every grid tile
whose geometry intersects the unioned region, and emit one enriched row
per selected tile together with the advisory warnings.  Attribute-column
merging (`merge_columns`) is outside the modelled scope (the spec leaves
its many-to-one semantics open and every recorded call passes `None`). -/
def AOI_tiler (env : Env) (AOI : AOISource) (tiling_grid : GridSource)
    (storage : Option Storage) :
    Except TilerError (List Warning × List TileJobRow) :=
  match normalizeAOI env AOI with
  | .error e => .error e
  | .ok aoiDF =>
    match loadGrid env tiling_grid storage with
    | .error e => .error e
    | .ok grid =>
      let aoiU := unionAll ((aoiDF.to_crs4326 env).geoms)
      let sel := grid.geoms.enum.filter fun p => regionIntersects p.2 aoiU
      .ok (gridWarnings grid, sel.map fun p => mkTileRow grid p.1 p.2)

/-! ## Concrete fixtures (used by witnesses and counterexamples) -/

/-- The unit box at the origin. -/
def unitBox : Box := ⟨0, 0, 1, 1⟩

/-- A box disjoint from `unitBox`. -/
def farBox : Box := ⟨5, 5, 7, 7⟩

/-- A two-tile grid carrying both an identifier column and a `bbox_dict`
column, in EPSG:4326. -/
def gridFull : GeoDataFrame :=
  { crs := "EPSG:4326"
    grid20id := some fun i => "tile" ++ toString i
    name := none
    bbox_dict := some fun i => ⟨i, 0, i + 1, 1, "EPSG:4326"⟩
    geoms := [[⟨0, 0, 1, 1⟩], [⟨1, 0, 2, 1⟩]] }

/-- A two-tile grid carrying neither an identifier column nor a
`bbox_dict` column, in EPSG:4326. -/
def gridBare : GeoDataFrame :=
  { crs := "EPSG:4326"
    grid20id := none
    name := none
    bbox_dict := none
    geoms := [[⟨0, 0, 1, 1⟩], [⟨1, 0, 2, 1⟩]] }

/-- A one-row AOI table holding the unit box, in EPSG:4326. -/
def aoiFileDF : GeoDataFrame :=
  { crs := "EPSG:4326", grid20id := none, name := none, bbox_dict := none
    geoms := [[unitBox]] }

/-- A packaged-EU-style grid: an identifier column but no `bbox_dict`
column (the column structure the notebook run records for the keyword
`EU`). -/
def euTestGrid : GeoDataFrame :=
  { gridBare with grid20id := some fun i => "eu" ++ toString i }

/-- A concrete environment: identity reprojection, a reader that knows the
single path `aoi.parquet`, the EU-style packaged grid, and a global grid
behind the storage collaborator. -/
def testEnv : Env :=
  { reproj := fun _ _ b => b
    readVector := fun p => if p = "aoi.parquet" then some aoiFileDF else none
    euGrid := euTestGrid
    globalGrid := fun _ => gridFull }

/-! ## General lemmas about the embedding -/

/-- Reprojection always yields the EPSG:4326 CRS tag. -/
theorem crs_to_crs4326 (df : GeoDataFrame) (env : Env) :
    (df.to_crs4326 env).crs = "EPSG:4326" := by
  unfold GeoDataFrame.to_crs4326
  split
  · assumption
  · rfl

/-- Reprojection does not touch the identifier columns. -/
theorem idColumn_to_crs4326 (df : GeoDataFrame) (env : Env) :
    idColumn (df.to_crs4326 env) = idColumn df := by
  unfold GeoDataFrame.to_crs4326
  split <;> rfl

/-- Reprojection does not touch the `bbox_dict` column. -/
theorem bbox_dict_to_crs4326 (df : GeoDataFrame) (env : Env) :
    (df.to_crs4326 env).bbox_dict = df.bbox_dict := by
  unfold GeoDataFrame.to_crs4326
  split <;> rfl

/-- A region intersects a union of regions exactly when it intersects one
of them (the set semantics behind selecting against the unioned AOI). -/
theorem regionIntersects_unionAll (r : Region) (rs : List Region) :
    regionIntersects r (unionAll rs) = true ↔
      ∃ s ∈ rs, regionIntersects r s = true := by
  simp only [regionIntersects, unionAll, List.any_eq_true, List.mem_flatten]
  constructor
  · rintro ⟨a, ha, b, ⟨s, hs, hbs⟩, hab⟩
    exact ⟨s, hs, a, ha, b, hbs, hab⟩
  · rintro ⟨s, hs, a, ha, b, hbs, hab⟩
    exact ⟨a, ha, b, ⟨s, hs, hbs⟩, hab⟩

/-- Inversion of a successful tiler run: the AOI normalized, the grid
loaded, the warnings are the grid's advisory warnings, and the rows are
the enriched selection of the grid tiles intersecting the unioned AOI. -/
theorem AOI_tiler_ok_inv {env : Env} {A : AOISource} {G : GridSource}
    {storage : Option Storage} {ws : List Warning} {rows : List TileJobRow}
    (h : AOI_tiler env A G storage = .ok (ws, rows)) :
    ∃ aoiDF grid, normalizeAOI env A = .ok aoiDF ∧
      loadGrid env G storage = .ok grid ∧
      ws = gridWarnings grid ∧
      rows = ((grid.geoms.enum.filter fun p =>
          regionIntersects p.2 (unionAll ((aoiDF.to_crs4326 env).geoms))).map
            fun p => mkTileRow grid p.1 p.2) := by
  unfold AOI_tiler at h
  cases h1 : normalizeAOI env A with
  | error e => rw [h1] at h; exact absurd h (by simp)
  | ok aoiDF =>
    rw [h1] at h
    cases h2 : loadGrid env G storage with
    | error e => rw [h2] at h; exact absurd h (by simp)
    | ok grid =>
      rw [h2] at h
      simp only [Except.ok.injEq, Prod.mk.injEq] at h
      exact ⟨aoiDF, grid, rfl, rfl, h.1.symm, h.2.symm⟩

/-- Composition of a successful tiler run from its two stages. -/
theorem AOI_tiler_ok_of {env : Env} {A : AOISource} {G : GridSource}
    {storage : Option Storage} {aoiDF grid : GeoDataFrame}
    (h1 : normalizeAOI env A = .ok aoiDF)
    (h2 : loadGrid env G storage = .ok grid) :
    AOI_tiler env A G storage = .ok (gridWarnings grid,
      (grid.geoms.enum.filter fun p =>
          regionIntersects p.2 (unionAll ((aoiDF.to_crs4326 env).geoms))).map
        fun p => mkTileRow grid p.1 p.2) := by
  unfold AOI_tiler
  rw [h1, h2]

/-! ## Claim C1 -/

/-- C1 (counterexample): the string `should_not_work` — not a resolvable
path or URL, not `EU`, not `global` — does NOT fail with the
unsupported-grid-specification error: as the notebook records, it is
attempted as a local file and fails with the unsupported-source error,
the very error kind raised for unreadable local files. -/
theorem C1_counterexample :
    AOI_tiler testEnv (AOISource.polygon [unitBox])
        (GridSource.str "should_not_work") none =
      Except.error TilerError.unsupportedSource ∧
    TilerError.unsupportedSource ≠ TilerError.unsupportedGridSpec := by
  exact ⟨rfl, by decide⟩

/-- C1 (amended): the unsupported-grid-specification error is raised when
the grid source is neither a geometry table nor a string; a string that is
not a URL and not one of the two keywords is treated as a local file path,
and its failed read raises the unsupported-source error — the same kind as
for unreadable local files. -/
theorem C1_amended_theorem :
    (∀ (env : Env) (storage : Option Storage),
        loadGrid env GridSource.other storage =
          Except.error TilerError.unsupportedGridSpec) ∧
    (∀ (env : Env) (s : String) (storage : Option Storage),
        isURL s = false → s ≠ "EU" → s ≠ "global" →
        env.readVector s = none →
        loadGrid env (GridSource.str s) storage =
          Except.error TilerError.unsupportedSource) := by
  constructor
  · intro env storage
    rfl
  · intro env s storage hu h1 h2 hr
    simp only [loadGrid, if_neg h1, if_neg h2, hu, Bool.false_eq_true,
      if_false, hr]

/-- C1 (witness): the amended claim evaluated on the concrete environment
at a non-table non-string grid source and at the notebook's failing
string. -/
theorem C1_witness :
    loadGrid testEnv GridSource.other none =
      Except.error TilerError.unsupportedGridSpec ∧
    loadGrid testEnv (GridSource.str "should_not_work") none =
      Except.error TilerError.unsupportedSource :=
  ⟨C1_amended_theorem.1 testEnv none,
   C1_amended_theorem.2 testEnv "should_not_work" none (by decide)
     (by decide) (by decide) rfl⟩

/-! ## Claim C9 -/

/-- C9: every string grid source that is not an http/https URL and not a
reserved keyword is attempted as a local vector file; any failure of that
read is caught and replaced by the single unsupported-source `ValueError`
with the recorded message, so unreadable files and nonexistent paths are
indistinguishable by error kind and the underlying I/O error is never
propagated. -/
theorem C9_theorem (env : Env) (A : AOISource) (aoiDF : GeoDataFrame)
    (s : String) (storage : Option Storage)
    (haoi : normalizeAOI env A = .ok aoiDF)
    (hu : isURL s = false) (h1 : s ≠ "EU") (h2 : s ≠ "global")
    (hr : env.readVector s = none) :
    AOI_tiler env A (GridSource.str s) storage =
      Except.error TilerError.unsupportedSource ∧
    TilerError.message TilerError.unsupportedSource =
      "If a path to a local file was supplied, it must be either a geoparquet or geopandas file or a geoJSON file. " := by
  constructor
  · have hload : loadGrid env (GridSource.str s) storage =
        Except.error TilerError.unsupportedSource := by
      simp only [loadGrid, if_neg h1, if_neg h2, hu, Bool.false_eq_true,
        if_false, hr]
    unfold AOI_tiler
    rw [haoi, hload]
  · rfl

/-- C9 (witness): the notebook's counter test, evaluated on the concrete
environment: the nonexistent extensionless path `should_not_work`. -/
theorem C9_witness :
    AOI_tiler testEnv (AOISource.polygon [unitBox])
        (GridSource.str "should_not_work") none =
      Except.error TilerError.unsupportedSource ∧
    TilerError.message TilerError.unsupportedSource =
      "If a path to a local file was supplied, it must be either a geoparquet or geopandas file or a geoJSON file. " :=
  C9_theorem testEnv (AOISource.polygon [unitBox])
    ⟨"EPSG:4326", none, none, none, [[unitBox]]⟩ "should_not_work" none rfl
    (by decide) (by decide) (by decide) rfl

/-! ## Claim C2 -/

/-- Snd-projection of enum membership. -/
theorem snd_mem_of_mem_enum {α : Type} {l : List α} {p : Nat × α}
    (hp : p ∈ l.enum) : p.2 ∈ l := by
  have h1 : p.2 ∈ l.enum.map Prod.snd := List.mem_map_of_mem Prod.snd hp
  rwa [List.enum_map_snd] at h1

/-- The enumeration of a list has no duplicate entries. -/
theorem nodup_enum {α : Type} (l : List α) : l.enum.Nodup := by
  have h1 : (l.enum.map Prod.fst).Nodup := by
    rw [List.enum_map_fst]; exact List.nodup_range _
  exact h1.of_map

/-- C2: a successful tiler run returns one enriched row per grid tile of
the selection, where a tile is selected exactly when its geometry
intersects (touches or overlaps) some feature of the unioned AOI — an
overlap predicate — and the selection carries each grid tile at most
once. -/
theorem C2_theorem {env : Env} {A : AOISource} {G : GridSource}
    {storage : Option Storage} {ws : List Warning} {rows : List TileJobRow}
    {aoiDF grid : GeoDataFrame}
    (h : AOI_tiler env A G storage = .ok (ws, rows))
    (haoi : normalizeAOI env A = .ok aoiDF)
    (hgrid : loadGrid env G storage = .ok grid) :
    ∃ sel : List (Nat × Region),
      rows = sel.map (fun p => mkTileRow grid p.1 p.2) ∧
      sel.Nodup ∧
      (∀ p : Nat × Region,
        p ∈ sel ↔ p ∈ grid.geoms.enum ∧
          ∃ f ∈ (aoiDF.to_crs4326 env).geoms,
            regionIntersects p.2 f = true) := by
  obtain ⟨a, g, ha, hg, hws, hrows⟩ := AOI_tiler_ok_inv h
  rw [haoi] at ha
  injection ha with ha
  rw [hgrid] at hg
  injection hg with hg
  subst ha hg
  refine ⟨_, hrows, ?_, ?_⟩
  · exact (nodup_enum grid.geoms).filter _
  · intro p
    simp only [List.mem_filter]
    rw [regionIntersects_unionAll]

/-- C2 (witness): a concrete run — the unit-box AOI against the two-tile
grid (both tiles meet the unit box, the second one only by touching, and
both are returned exactly once). -/
theorem C2_witness :
    ∃ sel : List (Nat × Region),
      [mkTileRow (gridFull.to_crs4326 testEnv) 0 [⟨0, 0, 1, 1⟩],
       mkTileRow (gridFull.to_crs4326 testEnv) 1 [⟨1, 0, 2, 1⟩]] =
        sel.map (fun p => mkTileRow (gridFull.to_crs4326 testEnv) p.1 p.2) ∧
      sel.Nodup ∧
      (∀ p : Nat × Region,
        p ∈ sel ↔ p ∈ (gridFull.to_crs4326 testEnv).geoms.enum ∧
          ∃ f ∈ ((⟨"EPSG:4326", none, none, none,
              [[unitBox]]⟩ : GeoDataFrame).to_crs4326 testEnv).geoms,
            regionIntersects p.2 f = true) :=
  @C2_theorem testEnv (AOISource.polygon [unitBox]) (GridSource.table gridFull)
    none []
    [mkTileRow (gridFull.to_crs4326 testEnv) 0 [⟨0, 0, 1, 1⟩],
     mkTileRow (gridFull.to_crs4326 testEnv) 1 [⟨1, 0, 2, 1⟩]]
    ⟨"EPSG:4326", none, none, none, [[unitBox]]⟩
    (gridFull.to_crs4326 testEnv)
    rfl rfl rfl

/-! ## Claim C3 -/

/-- C3: every tiling grid that loads successfully — from a geometry
table, a URL, a local path, or the keywords `EU` and `global` — carries
the EPSG:4326 CRS, having been reprojected before the tiler computes the
intersection on it. -/
theorem C3_theorem (env : Env) (src : GridSource) (storage : Option Storage)
    (grid : GeoDataFrame) (h : loadGrid env src storage = .ok grid) :
    grid.crs = "EPSG:4326" := by
  cases src with
  | table df =>
    simp only [loadGrid] at h
    injection h with h
    rw [← h]
    exact crs_to_crs4326 df env
  | str s =>
    simp only [loadGrid] at h
    split_ifs at h with h1 h2 h3
    · injection h with h
      rw [← h]
      exact crs_to_crs4326 _ env
    · cases hst : storage with
      | none => rw [hst] at h; exact Except.noConfusion h
      | some st =>
        rw [hst] at h
        injection h with h
        rw [← h]
        exact crs_to_crs4326 _ env
    · cases hrv : env.readVector s with
      | none => rw [hrv] at h; exact Except.noConfusion h
      | some df =>
        rw [hrv] at h
        injection h with h
        rw [← h]
        exact crs_to_crs4326 _ env
    · cases hrv : env.readVector s with
      | none => rw [hrv] at h; exact Except.noConfusion h
      | some df =>
        rw [hrv] at h
        injection h with h
        rw [← h]
        exact crs_to_crs4326 _ env
  | other =>
    simp only [loadGrid] at h
    exact Except.noConfusion h

/-- A grid table in a non-EPSG:4326 CRS, to exercise the reprojection. -/
def grid3035 : GeoDataFrame :=
  { gridFull with crs := "EPSG:3035" }

/-- C3 (witness): loading the EPSG:3035 grid table yields an EPSG:4326
grid. -/
theorem C3_witness : (grid3035.to_crs4326 testEnv).crs = "EPSG:4326" :=
  C3_theorem testEnv (GridSource.table grid3035) none
    (grid3035.to_crs4326 testEnv) rfl

/-! ## Claim C4 -/

/-- C4: with the keyword `global` and no storage collaborator the tiler
fails with the missing-credential error and returns no partial row set;
with a storage collaborator the global grid is fetched through it and the
call proceeds to a normal result. -/
theorem C4_theorem (env : Env) (A : AOISource) (aoiDF : GeoDataFrame)
    (haoi : normalizeAOI env A = .ok aoiDF) :
    AOI_tiler env A (GridSource.str "global") none =
      Except.error TilerError.missingCredential ∧
    (¬ ∃ out, AOI_tiler env A (GridSource.str "global") none = .ok out) ∧
    (∀ st : Storage, ∃ ws rows,
      AOI_tiler env A (GridSource.str "global") (some st) = .ok (ws, rows) ∧
      loadGrid env (GridSource.str "global") (some st) =
        .ok ((env.globalGrid st).to_crs4326 env)) := by
  have hload : loadGrid env (GridSource.str "global") none =
      Except.error TilerError.missingCredential := rfl
  have hfail : AOI_tiler env A (GridSource.str "global") none =
      Except.error TilerError.missingCredential := by
    unfold AOI_tiler
    rw [haoi, hload]
  refine ⟨hfail, ?_, ?_⟩
  · rintro ⟨out, hout⟩
    rw [hfail] at hout
    exact Except.noConfusion hout
  · intro st
    have hg : loadGrid env (GridSource.str "global") (some st) =
        .ok ((env.globalGrid st).to_crs4326 env) := rfl
    exact ⟨_, _, AOI_tiler_ok_of haoi hg, hg⟩

/-- C4 (witness): the concrete environment with the unit-box AOI —
missing-credential failure without storage, a normal run with it. -/
theorem C4_witness :
    AOI_tiler testEnv (AOISource.polygon [unitBox])
        (GridSource.str "global") none =
      Except.error TilerError.missingCredential ∧
    (¬ ∃ out, AOI_tiler testEnv (AOISource.polygon [unitBox])
        (GridSource.str "global") none = .ok out) ∧
    (∀ st : Storage, ∃ ws rows,
      AOI_tiler testEnv (AOISource.polygon [unitBox])
          (GridSource.str "global") (some st) = .ok (ws, rows) ∧
      loadGrid testEnv (GridSource.str "global") (some st) =
        .ok ((testEnv.globalGrid st).to_crs4326 testEnv)) :=
  C4_theorem testEnv (AOISource.polygon [unitBox])
    ⟨"EPSG:4326", none, none, none, [[unitBox]]⟩ rfl

/-! ## Claim C5 -/

/-- C5: every output row of a successful tiler run is built from a grid
tile; its identifier is the grid identifier column value when that column
(`grid20id`, fallback `name`) is present and the synthesized sequential
key otherwise; its bounding-box dictionary is the grid `bbox_dict` column
value when present and is computed from the tile geometry's bounds plus
the grid's CRS otherwise; and it is a mapping with the numeric keys
`west`, `south`, `east`, `north` and the string key `crs`. -/
theorem C5_theorem {env : Env} {A : AOISource} {G : GridSource}
    {storage : Option Storage} {ws : List Warning} {rows : List TileJobRow}
    {grid : GeoDataFrame}
    (h : AOI_tiler env A G storage = .ok (ws, rows))
    (hgrid : loadGrid env G storage = .ok grid) :
    ∀ row ∈ rows, ∃ p : Nat × Region,
      p ∈ grid.geoms.enum ∧
      row = mkTileRow grid p.1 p.2 ∧
      (∀ col, idColumn grid = some col → row.tile_id = Sum.inl (col p.1)) ∧
      (idColumn grid = none → row.tile_id = Sum.inr p.1) ∧
      (∀ col, grid.bbox_dict = some col → row.bbox = col p.1) ∧
      (grid.bbox_dict = none → row.bbox = boundsBBox p.2 grid.crs) ∧
      row.bbox.toPairs =
        [("west", JValue.num row.bbox.west),
         ("south", JValue.num row.bbox.south),
         ("east", JValue.num row.bbox.east),
         ("north", JValue.num row.bbox.north),
         ("crs", JValue.str row.bbox.crs)] := by
  obtain ⟨a, g, ha, hg, hws, hrows⟩ := AOI_tiler_ok_inv h
  rw [hgrid] at hg
  injection hg with hg
  subst hg
  subst hrows
  intro row hrow
  rw [List.mem_map] at hrow
  obtain ⟨p, hp, hmk⟩ := hrow
  rw [List.mem_filter] at hp
  refine ⟨p, hp.1, hmk.symm, ?_, ?_, ?_, ?_, rfl⟩
  · intro col hcol
    rw [← hmk]
    simp [mkTileRow, hcol]
  · intro hnone
    rw [← hmk]
    simp [mkTileRow, hnone]
  · intro col hcol
    rw [← hmk]
    simp [mkTileRow, hcol]
  · intro hnone
    rw [← hmk]
    simp [mkTileRow, hnone]

/-- C5 (witness): the first row of the concrete unit-box run against the
fully-columned grid satisfies the row contract. -/
theorem C5_witness :
    ∃ p : Nat × Region,
      p ∈ (gridFull.to_crs4326 testEnv).geoms.enum ∧
      mkTileRow (gridFull.to_crs4326 testEnv) 0 [⟨0, 0, 1, 1⟩] =
        mkTileRow (gridFull.to_crs4326 testEnv) p.1 p.2 ∧
      (∀ col, idColumn (gridFull.to_crs4326 testEnv) = some col →
        (mkTileRow (gridFull.to_crs4326 testEnv) 0 [⟨0, 0, 1, 1⟩]).tile_id =
          Sum.inl (col p.1)) ∧
      (idColumn (gridFull.to_crs4326 testEnv) = none →
        (mkTileRow (gridFull.to_crs4326 testEnv) 0 [⟨0, 0, 1, 1⟩]).tile_id =
          Sum.inr p.1) ∧
      (∀ col, (gridFull.to_crs4326 testEnv).bbox_dict = some col →
        (mkTileRow (gridFull.to_crs4326 testEnv) 0 [⟨0, 0, 1, 1⟩]).bbox =
          col p.1) ∧
      ((gridFull.to_crs4326 testEnv).bbox_dict = none →
        (mkTileRow (gridFull.to_crs4326 testEnv) 0 [⟨0, 0, 1, 1⟩]).bbox =
          boundsBBox p.2 (gridFull.to_crs4326 testEnv).crs) ∧
      (mkTileRow (gridFull.to_crs4326 testEnv) 0 [⟨0, 0, 1, 1⟩]).bbox.toPairs =
        [("west", JValue.num
            (mkTileRow (gridFull.to_crs4326 testEnv) 0 [⟨0, 0, 1, 1⟩]).bbox.west),
         ("south", JValue.num
            (mkTileRow (gridFull.to_crs4326 testEnv) 0 [⟨0, 0, 1, 1⟩]).bbox.south),
         ("east", JValue.num
            (mkTileRow (gridFull.to_crs4326 testEnv) 0 [⟨0, 0, 1, 1⟩]).bbox.east),
         ("north", JValue.num
            (mkTileRow (gridFull.to_crs4326 testEnv) 0 [⟨0, 0, 1, 1⟩]).bbox.north),
         ("crs", JValue.str
            (mkTileRow (gridFull.to_crs4326 testEnv) 0 [⟨0, 0, 1, 1⟩]).bbox.crs)] :=
  @C5_theorem testEnv (AOISource.polygon [unitBox]) (GridSource.table gridFull)
    none []
    [mkTileRow (gridFull.to_crs4326 testEnv) 0 [⟨0, 0, 1, 1⟩],
     mkTileRow (gridFull.to_crs4326 testEnv) 1 [⟨1, 0, 2, 1⟩]]
    (gridFull.to_crs4326 testEnv)
    rfl rfl
    (mkTileRow (gridFull.to_crs4326 testEnv) 0 [⟨0, 0, 1, 1⟩])
    (by simp)

/-! ## Claim C6 -/

/-- C6: when the loaded grid lacks the identifier column and the
`bbox_dict` column the tiler emits exactly one advisory warning per
missing column, still completes normally with a row set, and every
returned row carries a bounding-box dictionary derived from the tile
geometry's bounds paired with the grid's CRS. -/
theorem C6_theorem {env : Env} {A : AOISource} {G : GridSource}
    {storage : Option Storage} {aoiDF grid : GeoDataFrame}
    (haoi : normalizeAOI env A = .ok aoiDF)
    (hgrid : loadGrid env G storage = .ok grid)
    (hid : idColumn grid = none) (hbb : grid.bbox_dict = none) :
    ∃ rows, AOI_tiler env A G storage =
        .ok ([Warning.missingIdColumn, Warning.missingBboxDictColumn], rows) ∧
      ∀ row ∈ rows, row.bbox = boundsBBox row.geom grid.crs := by
  have hws : gridWarnings grid =
      [Warning.missingIdColumn, Warning.missingBboxDictColumn] := by
    unfold gridWarnings
    rw [hid, hbb]
    rfl
  refine ⟨(grid.geoms.enum.filter fun p =>
      regionIntersects p.2 (unionAll ((aoiDF.to_crs4326 env).geoms))).map
        (fun p => mkTileRow grid p.1 p.2), ?_, ?_⟩
  · rw [AOI_tiler_ok_of haoi hgrid, hws]
  · intro row hrow
    rw [List.mem_map] at hrow
    obtain ⟨p, hp, hmk⟩ := hrow
    rw [← hmk]
    simp [mkTileRow, hbb]

/-- C6 (witness): the unit-box AOI against the column-less grid — both
warnings, a normal two-row result, derived bounding boxes. -/
theorem C6_witness :
    ∃ rows, AOI_tiler testEnv (AOISource.polygon [unitBox])
        (GridSource.table gridBare) none =
        .ok ([Warning.missingIdColumn, Warning.missingBboxDictColumn], rows) ∧
      ∀ row ∈ rows, row.bbox =
        boundsBBox row.geom (gridBare.to_crs4326 testEnv).crs :=
  @C6_theorem testEnv (AOISource.polygon [unitBox]) (GridSource.table gridBare)
    none ⟨"EPSG:4326", none, none, none, [[unitBox]]⟩
    (gridBare.to_crs4326 testEnv)
    rfl rfl rfl rfl

/-! ## Claim C7 -/

/-- C7: when no grid tile intersects the unioned AOI the tiler returns a
normal result with an empty row set — not an error. -/
theorem C7_theorem {env : Env} {A : AOISource} {G : GridSource}
    {storage : Option Storage} {aoiDF grid : GeoDataFrame}
    (haoi : normalizeAOI env A = .ok aoiDF)
    (hgrid : loadGrid env G storage = .ok grid)
    (hdisj : ∀ g ∈ grid.geoms,
      regionIntersects g (unionAll ((aoiDF.to_crs4326 env).geoms)) = false) :
    AOI_tiler env A G storage = .ok (gridWarnings grid, []) := by
  rw [AOI_tiler_ok_of haoi hgrid]
  have hsel : (grid.geoms.enum.filter fun p =>
      regionIntersects p.2 (unionAll ((aoiDF.to_crs4326 env).geoms))) = [] := by
    rw [List.filter_eq_nil_iff]
    intro p hp
    rw [hdisj p.2 (snd_mem_of_mem_enum hp)]
    exact Bool.false_ne_true
  rw [hsel]
  rfl

/-- C7 (witness): an AOI far away from every tile of the grid yields the
empty row set with a normal (non-error) result. -/
theorem C7_witness :
    AOI_tiler testEnv (AOISource.polygon [farBox])
        (GridSource.table gridBare) none =
      .ok (gridWarnings (gridBare.to_crs4326 testEnv), []) :=
  @C7_theorem testEnv (AOISource.polygon [farBox]) (GridSource.table gridBare)
    none ⟨"EPSG:4326", none, none, none, [[farBox]]⟩
    (gridBare.to_crs4326 testEnv)
    rfl rfl (by decide)

/-! ## Claim C8 -/

/-- The unioned region of a normalized AOI after reprojection to
EPSG:4326 — the region the tiler intersects the grid with; `none` when
normalization fails. -/
def aoiUnion (env : Env) (src : AOISource) : Option Region :=
  match normalizeAOI env src with
  | .ok df => some (unionAll ((df.to_crs4326 env).geoms))
  | .error _ => none

/-- C8: a bounding-box mapping normalizes to a one-row table holding its
rectangle with the given CRS attached; a bare polygon normalizes to a
one-row table with CRS defaulted to EPSG:4326; and the five supported AOI
source forms representing the same geographic rectangle — geometry table,
bounding-box mapping, GeoJSON-like mapping, file path, bare polygon —
yield the identical unioned region (exactly, in this rational model). -/
theorem C8_theorem (env : Env) (d : BBoxDict) (p : String)
    (hcrs : d.crs = "EPSG:4326")
    (hfile : env.readVector p =
      some ⟨"EPSG:4326", none, none, none, [bboxPolygon d]⟩) :
    (∀ d2 : BBoxDict, normalizeAOI env (AOISource.bbox d2) =
      .ok ⟨d2.crs, none, none, none, [bboxPolygon d2]⟩) ∧
    (∀ g : Region, normalizeAOI env (AOISource.polygon g) =
      .ok ⟨"EPSG:4326", none, none, none, [g]⟩) ∧
    aoiUnion env (AOISource.bbox d) = some (unionAll [bboxPolygon d]) ∧
    aoiUnion env (AOISource.polygon (bboxPolygon d)) =
      aoiUnion env (AOISource.bbox d) ∧
    aoiUnion env (AOISource.geojson [bboxPolygon d]) =
      aoiUnion env (AOISource.bbox d) ∧
    aoiUnion env (AOISource.path p) = aoiUnion env (AOISource.bbox d) ∧
    aoiUnion env (AOISource.table
        ⟨"EPSG:4326", none, none, none, [bboxPolygon d]⟩) =
      aoiUnion env (AOISource.bbox d) := by
  have hb : aoiUnion env (AOISource.bbox d) =
      some (unionAll [bboxPolygon d]) := by
    simp [aoiUnion, normalizeAOI, GeoDataFrame.to_crs4326, hcrs]
  refine ⟨fun d2 => rfl, fun g => rfl, hb, ?_, ?_, ?_, ?_⟩
  · rw [hb]
    simp [aoiUnion, normalizeAOI, GeoDataFrame.to_crs4326]
  · rw [hb]
    simp [aoiUnion, normalizeAOI, GeoDataFrame.to_crs4326]
  · rw [hb]
    simp [aoiUnion, normalizeAOI, GeoDataFrame.to_crs4326, hfile]
  · rw [hb]
    simp [aoiUnion, normalizeAOI, GeoDataFrame.to_crs4326]

/-- C8 (witness): the unit rectangle supplied as a bounding-box mapping,
a bare polygon, a GeoJSON feature collection, the readable path
`aoi.parquet`, and a geometry table all normalize to the same unioned
region in the concrete environment. -/
theorem C8_witness :
    (∀ d2 : BBoxDict, normalizeAOI testEnv (AOISource.bbox d2) =
      .ok ⟨d2.crs, none, none, none, [bboxPolygon d2]⟩) ∧
    (∀ g : Region, normalizeAOI testEnv (AOISource.polygon g) =
      .ok ⟨"EPSG:4326", none, none, none, [g]⟩) ∧
    aoiUnion testEnv (AOISource.bbox ⟨0, 0, 1, 1, "EPSG:4326"⟩) =
      some (unionAll [bboxPolygon ⟨0, 0, 1, 1, "EPSG:4326"⟩]) ∧
    aoiUnion testEnv
        (AOISource.polygon (bboxPolygon ⟨0, 0, 1, 1, "EPSG:4326"⟩)) =
      aoiUnion testEnv (AOISource.bbox ⟨0, 0, 1, 1, "EPSG:4326"⟩) ∧
    aoiUnion testEnv
        (AOISource.geojson [bboxPolygon ⟨0, 0, 1, 1, "EPSG:4326"⟩]) =
      aoiUnion testEnv (AOISource.bbox ⟨0, 0, 1, 1, "EPSG:4326"⟩) ∧
    aoiUnion testEnv (AOISource.path "aoi.parquet") =
      aoiUnion testEnv (AOISource.bbox ⟨0, 0, 1, 1, "EPSG:4326"⟩) ∧
    aoiUnion testEnv (AOISource.table
        ⟨"EPSG:4326", none, none, none,
          [bboxPolygon ⟨0, 0, 1, 1, "EPSG:4326"⟩]⟩) =
      aoiUnion testEnv (AOISource.bbox ⟨0, 0, 1, 1, "EPSG:4326"⟩) :=
  C8_theorem testEnv ⟨0, 0, 1, 1, "EPSG:4326"⟩ "aoi.parquet" rfl rfl

/-! ## Claim C10 -/

/-- C10: for every environment whose packaged `EU` grid carries a tile
identifier column but no `bbox_dict` column — the column structure the
notebook run records for the keyword `EU` — the tiler with
`tiling_grid = EU` emits exactly the missing-`bbox_dict` warning, never
the missing-identifier warning, and every returned row carries a
bounding-box dictionary derived from the tile geometry's bounds rather
than a precomputed grid column. -/
theorem C10_theorem {env : Env} {A : AOISource} {aoiDF : GeoDataFrame}
    (storage : Option Storage)
    (haoi : normalizeAOI env A = .ok aoiDF)
    (hid : (idColumn env.euGrid).isSome = true)
    (hbb : env.euGrid.bbox_dict = none) :
    ∃ rows, AOI_tiler env A (GridSource.str "EU") storage =
        .ok ([Warning.missingBboxDictColumn], rows) ∧
      ∀ row ∈ rows, row.bbox =
        boundsBBox row.geom (env.euGrid.to_crs4326 env).crs := by
  have hgrid : loadGrid env (GridSource.str "EU") storage =
      .ok (env.euGrid.to_crs4326 env) := rfl
  obtain ⟨col, hcol⟩ := Option.isSome_iff_exists.mp hid
  have hcol' : idColumn (env.euGrid.to_crs4326 env) = some col := by
    rw [idColumn_to_crs4326]
    exact hcol
  have hbb' : (env.euGrid.to_crs4326 env).bbox_dict = none := by
    rw [bbox_dict_to_crs4326]
    exact hbb
  have hws : gridWarnings (env.euGrid.to_crs4326 env) =
      [Warning.missingBboxDictColumn] := by
    unfold gridWarnings
    rw [hcol', hbb']
    rfl
  refine ⟨((env.euGrid.to_crs4326 env).geoms.enum.filter fun p =>
      regionIntersects p.2 (unionAll ((aoiDF.to_crs4326 env).geoms))).map
        (fun p => mkTileRow (env.euGrid.to_crs4326 env) p.1 p.2), ?_, ?_⟩
  · rw [AOI_tiler_ok_of haoi hgrid, hws]
  · intro row hrow
    rw [List.mem_map] at hrow
    obtain ⟨p, hp, hmk⟩ := hrow
    rw [← hmk]
    simp [mkTileRow, hbb']

/-- C10 (witness): the unit-box AOI against the concrete environment,
whose packaged EU grid has an identifier column and no `bbox_dict`
column. -/
theorem C10_witness :
    ∃ rows, AOI_tiler testEnv (AOISource.polygon [unitBox])
        (GridSource.str "EU") none =
        .ok ([Warning.missingBboxDictColumn], rows) ∧
      ∀ row ∈ rows, row.bbox =
        boundsBBox row.geom (testEnv.euGrid.to_crs4326 testEnv).crs :=
  @C10_theorem testEnv (AOISource.polygon [unitBox])
    ⟨"EPSG:4326", none, none, none, [[unitBox]]⟩
    none rfl rfl rfl

end EOProcessing
